import Mathlib

/-!
Verification of the cloud-sync status orchestrator of
`modules/mod-cloud-audiocom/ui/ProjectCloudUIExtension.cpp`.

The extension's member state is embedded as `ExtState`; the three operations
`SetUploadProgress`, `AllowClosing` and `OnCloudStatusChanged` are translated
from the source.  External collaborators (dialogs, the local resave, the
progress capability's poll answer, the saves counter) are modelled as an
`Env` record of oracle answers supplied per call, and every externally
visible side effect the code performs is recorded as an `Effect` in the
order the code performs it.
-/

/-- `SaveMode` passed to `SaveToCloud` (modelled from the spec §6:
`triggerSync(project, mode)` with modes `Normal`, `ForceSave`, `SaveNew`;
the defining header is not under `src/`). -/
inductive SaveMode where
  | Normal
  | ForceSave
  | SaveNew
deriving DecidableEq, Repr

/-- Modelled from the spec §3: the closed enumeration of `CloudSyncError`
kinds matched by the `switch` in `OnCloudStatusChanged`; the defining header
is not under `src/`. -/
inductive CloudSyncErrorKind where
  | Authorization
  | ProjectLimitReached
  | ProjectStorageLimitReached
  | ProjectVersionConflict
  | ProjectNotFound
  | Network
  | DataUploadFailed
  | Server
  | ClientFailure
  | Cancelled
deriving DecidableEq, Repr

/-- `CloudSyncError`: the field the C++ calls `Type` is named `ErrorKind`
here because `Type` is a Lean keyword. -/
structure CloudSyncError where
  ErrorKind : CloudSyncErrorKind
  ErrorMessage : String
deriving DecidableEq, Repr

/-- Modelled from the spec §3: the sync status states
`Idle, Syncing, Succeeded, Failed`; the defining header is not under
`src/`. -/
inductive ProjectSyncStatus where
  | Idle
  | Syncing
  | Succeeded
  | Failed
deriving DecidableEq, Repr

/-- The status snapshot delivered to `OnCloudStatusChanged`.  `Progress` is
the C++ `double` in `[0,1]`, embedded as a rational. -/
structure CloudStatusChangedMessage where
  Status : ProjectSyncStatus
  Progress : ℚ
  Error : Option CloudSyncError
deriving DecidableEq, Repr

/-- Modelled from the spec §3: `IsSyncing()` holds exactly when the status
snapshot is in the in-progress (`Syncing`) state; the defining header is not
under `src/`. -/
def CloudStatusChangedMessage.IsSyncing (m : CloudStatusChangedMessage) : Bool :=
  m.Status == ProjectSyncStatus.Syncing

/-- Modelled from the spec §6: the progress capability's poll answer set
`\x7bContinue, Cancelled, Stopped\x7d`; `BasicUI.h` is not under `src/`. -/
inductive ProgressResult where
  | Continue
  | Cancelled
  | Stopped
deriving DecidableEq, Repr

/-- Oracle answers of the external collaborators consumed during one call:
the saves counter, each dialog's chosen identifier, the local resave
outcome, and the progress capability's poll answer. -/
structure Env where
  savesCount : Nat
  limitVisitAudioCom : Bool
  conflictUseLocal : Bool
  notFoundSaveLocally : Bool
  resaveLocallySucceeds : Bool
  pollResult : ProgressResult
deriving DecidableEq, Repr

/-- The member state of `ProjectCloudUIExtension`.  `mProgressDialog` records
whether the progress-dialog handle currently exists. -/
structure ExtState where
  mInSync : Bool
  mClosingCancelled : Bool
  mNeedsFirstSaveDialog : Bool
  mProgress : ℚ
  mProgressDialog : Bool
deriving DecidableEq, Repr

/-- A freshly attached extension: all flags clear, no dialog handle. -/
def initialState : ExtState :=
  { mInSync := false
    mClosingCancelled := false
    mNeedsFirstSaveDialog := false
    mProgress := 0
    mProgressDialog := false }

/-- Every externally visible side effect of the extension, recorded in the
order the code performs it. -/
inductive Effect where
  | unlinkAccount
  | saveToCloud (mode : SaveMode)
  | resaveLocally (succeeded : Bool)
  | reopenProject
  | showSyncSuccessDialog
  | showProjectLimitDialog
  | showWaitForActionDialog
  | showVersionConflictDialog
  | showNotCloudProjectDialog
  | showConnectionIssuesDialog
  | showErrorDialog (logged : String)
  | poll (numerator : ℤ) (denominator : ℤ)
  | logError (record : String)
deriving DecidableEq, Repr

/-- The diagnostic record written by `wxLogError` at the end of the failure
handler: the format string carries only the error message. -/
def cloudSyncFailedRecord (message : String) : String :=
  "Cloud sync has failed: " ++ message

/-- `ProjectCloudUIExtension::SetUploadProgress` (lines 63-80): stores the
progress, returns early when no dialog handle exists, otherwise polls the
dialog at tick `progress * 10000` of `10000`.  A `Cancelled` answer records
the cancellation, destroys the handle and returns `true`; otherwise the
call returns `result != Stopped`.  The spec models the tick handed to the
integer-resolution capability as `round (progress * 10000)` (`BasicUI.h`,
which fixes the C++ conversion, is not under `src/`). -/
def SetUploadProgress (env : Env) (s : ExtState) (progress : ℚ) :
    ExtState × Bool × List Effect :=
  let s := { s with mProgress := progress }
  if s.mProgressDialog = false then
    (s, true, [])
  else
    let result := env.pollResult
    let acts := [Effect.poll (round (progress * 10000)) 10000]
    if result = ProgressResult.Cancelled then
      ({ s with mClosingCancelled := true, mProgressDialog := false }, true, acts)
    else
      (s, result ≠ ProgressResult.Stopped, acts)

/-- `ProjectCloudUIExtension::AllowClosing` (lines 82-98): while the sync is
in flight and closing has not been cancelled, make sure a progress dialog
exists and yield; afterwards return `!mInSync || !mClosingCancelled`.
Events processed during one `BasicUI::Yield()` are modelled by the `step`
state transformer; `fuel` bounds the number of iterations, `none` meaning
the loop was still running when the bound ran out. -/
def AllowClosing (step : ExtState → ExtState) :
    Nat → ExtState → Option (Bool × ExtState)
  | 0, s =>
    if s.mInSync && !s.mClosingCancelled then
      none
    else
      some ((!s.mInSync || !s.mClosingCancelled), s)
  | Nat.succ n, s =>
    if s.mInSync && !s.mClosingCancelled then
      let s := if s.mProgressDialog then s else { s with mProgressDialog := true }
      AllowClosing step n (step s)
    else
      some ((!s.mInSync || !s.mClosingCancelled), s)

/-- The recovery branch selected by the `switch (error.Type)` of
`OnCloudStatusChanged` (lines 137-214), as the list of external actions the
selected branch performs, in source order. -/
def recoveryActions (env : Env) (error : CloudSyncError) : List Effect :=
  match error.ErrorKind with
  | CloudSyncErrorKind.Authorization =>
      [Effect.unlinkAccount, Effect.saveToCloud SaveMode.Normal]
  | CloudSyncErrorKind.ProjectLimitReached
  | CloudSyncErrorKind.ProjectStorageLimitReached =>
      Effect.showProjectLimitDialog ::
        (if env.limitVisitAudioCom then
          [Effect.showWaitForActionDialog, Effect.saveToCloud SaveMode.Normal]
        else
          Effect.resaveLocally env.resaveLocallySucceeds ::
            (if env.resaveLocallySucceeds then []
             else [Effect.saveToCloud SaveMode.Normal]))
  | CloudSyncErrorKind.ProjectVersionConflict =>
      Effect.showVersionConflictDialog ::
        (if env.conflictUseLocal then [Effect.saveToCloud SaveMode.ForceSave]
         else [Effect.reopenProject])
  | CloudSyncErrorKind.ProjectNotFound =>
      Effect.showNotCloudProjectDialog ::
        (if env.notFoundSaveLocally then
          Effect.resaveLocally env.resaveLocallySucceeds ::
            (if env.resaveLocallySucceeds then []
             else [Effect.saveToCloud SaveMode.SaveNew])
        else
          [Effect.saveToCloud SaveMode.SaveNew])
  | CloudSyncErrorKind.Network =>
      [Effect.showConnectionIssuesDialog]
  | CloudSyncErrorKind.DataUploadFailed
  | CloudSyncErrorKind.Server
  | CloudSyncErrorKind.ClientFailure =>
      [Effect.showErrorDialog error.ErrorMessage]
  | CloudSyncErrorKind.Cancelled =>
      []

/-- `ProjectCloudUIExtension::OnCloudStatusChanged` (lines 100-218): update
`mInSync`; lazily arm the first-save announcement whenever it is unarmed and
the saves counter reads zero; when not syncing, drop the dialog handle and
fire the announcement if armed, otherwise forward the progress; finally, on
a `Failed` status carrying an error, run the selected recovery branch and
emit the diagnostic log record. -/
def OnCloudStatusChanged (env : Env) (s : ExtState)
    (message : CloudStatusChangedMessage) : ExtState × List Effect :=
  let s := { s with mInSync := message.IsSyncing }
  let s :=
    if !s.mNeedsFirstSaveDialog then
      { s with mNeedsFirstSaveDialog := env.savesCount == 0 }
    else s
  let (s, acts) :=
    if !s.mInSync then
      let s := { s with mProgressDialog := false }
      if s.mNeedsFirstSaveDialog then
        ({ s with mNeedsFirstSaveDialog := false },
          [Effect.showSyncSuccessDialog])
      else
        (s, ([] : List Effect))
    else
      let (s, _, acts) := SetUploadProgress env s message.Progress
      (s, acts)
  match message.Status, message.Error with
  | ProjectSyncStatus.Failed, some error =>
      (s, acts ++ recoveryActions env error
            ++ [Effect.logError (cloudSyncFailedRecord error.ErrorMessage)])
  | _, _ => (s, acts)

/-- Fold a sequence of status events through one extension instance,
collecting every recorded action in delivery order. -/
def runTrace (s : ExtState) :
    List (Env × CloudStatusChangedMessage) → ExtState × List Effect
  | [] => (s, [])
  | (env, msg) :: rest =>
      let (s1, acts) := OnCloudStatusChanged env s msg
      let (s2, acts2) := runTrace s1 rest
      (s2, acts ++ acts2)

/-- Recognises the first-sync announcement effect. -/
def isAnnouncement : Effect → Bool
  | Effect.showSyncSuccessDialog => true
  | _ => false

/-- Recognises the diagnostic log effect. -/
def isLogRecord : Effect → Bool
  | Effect.logError _ => true
  | _ => false

/-- Recognises a sync re-trigger request. -/
def isSaveToCloud : Effect → Bool
  | Effect.saveToCloud _ => true
  | _ => false

/-- The sequence of `SaveMode`s of the sync re-triggers in an effect list. -/
def saveModes (acts : List Effect) : List SaveMode :=
  acts.filterMap fun a =>
    match a with
    | Effect.saveToCloud mode => some mode
    | _ => none

/-- Number of first-sync announcements in an effect list. -/
def countAnnouncements (acts : List Effect) : Nat :=
  (acts.filter isAnnouncement).length

/-- Number of diagnostic log records in an effect list. -/
def countLogRecords (acts : List Effect) : Nat :=
  (acts.filter isLogRecord).length

/-- A default oracle: one prior save, pessimistic dialog answers, a
`Continue` poll answer. -/
def env0 : Env :=
  { savesCount := 1
    limitVisitAudioCom := false
    conflictUseLocal := false
    notFoundSaveLocally := false
    resaveLocallySucceeds := true
    pollResult := ProgressResult.Continue }

/-- An idle status snapshot. -/
def idleMsg : CloudStatusChangedMessage :=
  { Status := ProjectSyncStatus.Idle, Progress := 0, Error := none }

/-- An in-progress status snapshot at 50 percent. -/
def syncingMsg : CloudStatusChangedMessage :=
  { Status := ProjectSyncStatus.Syncing, Progress := 1 / 2, Error := none }

/-- The state while a sync is in flight and no dialog exists. -/
def syncingState : ExtState :=
  { initialState with mInSync := true }

/-- The state while a sync is in flight and the wait dialog exists. -/
def dialogState : ExtState :=
  { initialState with mInSync := true, mProgressDialog := true }

/-- An oracle whose progress capability answers `Cancelled`. -/
def cancelEnv : Env :=
  { env0 with pollResult := ProgressResult.Cancelled }

/-- One cooperative yield during which a `Syncing` status event arrives and
the user cancels the wait dialog. -/
def cancelStep (s : ExtState) : ExtState :=
  (OnCloudStatusChanged cancelEnv s syncingMsg).1


/-- When the wait-loop condition is already false, `AllowClosing` exits at
once, untouched state, returning the exit formula. -/
theorem allowClosing_exit (step : ExtState → ExtState) (fuel : Nat)
    (s : ExtState) (h : (s.mInSync && !s.mClosingCancelled) = false) :
    AllowClosing step fuel s = some ((!s.mInSync || !s.mClosingCancelled), s) := by
  cases fuel <;> simp [AllowClosing, h]

/-- Whenever `AllowClosing` terminates, the returned Boolean is the exit
formula `!mInSync || !mClosingCancelled` of the final state. -/
theorem allowClosing_result (step : ExtState → ExtState) :
    ∀ (fuel : Nat) (s : ExtState) (r : Bool) (s' : ExtState),
      AllowClosing step fuel s = some (r, s') →
      r = (!s'.mInSync || !s'.mClosingCancelled) := by
  intro fuel
  induction fuel with
  | zero =>
      intro s r s' h
      simp only [AllowClosing] at h
      split at h
      · exact absurd h (by simp)
      · simp only [Option.some.injEq, Prod.mk.injEq] at h
        obtain ⟨h1, h2⟩ := h
        subst h2
        exact h1.symm
  | succ n ih =>
      intro s r s' h
      simp only [AllowClosing] at h
      split at h
      · exact ih _ _ _ h
      · simp only [Option.some.injEq, Prod.mk.injEq] at h
        obtain ⟨h1, h2⟩ := h
        subst h2
        exact h1.symm

/-- C3: `allowClosing()` returns the value of
`!currentlySyncing || !closingWasCancelled` evaluated after its wait loop
exits, and when `currentlySyncing` is false at call time it returns `true`
immediately with the state — in particular the dialog slot — untouched. -/
theorem allowClosing_returns_exit_formula (step : ExtState → ExtState)
    (fuel : Nat) (s s' : ExtState) (r : Bool)
    (h : AllowClosing step fuel s = some (r, s')) :
    r = (!s'.mInSync || !s'.mClosingCancelled) ∧
      (s.mInSync = false → AllowClosing step fuel s = some (true, s)) := by
  refine ⟨allowClosing_result step fuel s r s' h, fun hn => ?_⟩
  have he := allowClosing_exit step fuel s (by simp [hn])
  simpa [hn] using he

/-- Witness for `allowClosing_returns_exit_formula`: a zero-fuel call on the
initial (idle) state. -/
theorem allowClosing_returns_exit_formula_witness :
    (true = (!initialState.mInSync || !initialState.mClosingCancelled)) ∧
      (initialState.mInSync = false →
        AllowClosing id 0 initialState = some (true, initialState)) :=
  allowClosing_returns_exit_formula id 0 initialState initialState true (by rfl)

/-- C2 counterexample: a sync is in flight, the user cancels the wait
dialog during the first yield, the sync is still ongoing when the loop
exits — and `AllowClosing` returns `false`, not `true` as claimed. -/
theorem allowClosing_cancel_blocks_closing :
    (AllowClosing cancelStep 2 syncingState).map Prod.fst = some false ∧
      (AllowClosing cancelStep 2 syncingState).map
          (fun p => ((p.2).mInSync, (p.2).mClosingCancelled)) =
        some (true, true) := by
  constructor <;> rfl

/-- C2 amended: when the wait loop exits with the cancellation flag set,
`allowClosing()` returns `!currentlySyncing` — `false` whenever the sync is
still ongoing (closing is blocked), `true` only if the sync has meanwhile
ended. -/
theorem allowClosing_cancelled_gives_not_syncing (step : ExtState → ExtState)
    (fuel : Nat) (s s' : ExtState) (r : Bool)
    (h : AllowClosing step fuel s = some (r, s'))
    (hc : s'.mClosingCancelled = true) :
    r = !s'.mInSync := by
  have hr := allowClosing_result step fuel s r s' h
  simpa [hc] using hr

/-- The state in which the wait loop driven by `cancelStep` exits. -/
def cancelledExitState : ExtState :=
  { mInSync := true
    mClosingCancelled := true
    mNeedsFirstSaveDialog := false
    mProgress := 1 / 2
    mProgressDialog := false }

/-- Witness for `allowClosing_cancelled_gives_not_syncing` on the concrete
cancelled run. -/
theorem allowClosing_cancelled_gives_not_syncing_witness :
    (false : Bool) = !cancelledExitState.mInSync :=
  allowClosing_cancelled_gives_not_syncing cancelStep 2 syncingState
    cancelledExitState false (by rfl) (by rfl)

/-- `SetUploadProgress` never clears the cancellation flag. -/
theorem setUploadProgress_cancel_mono (env : Env) (s : ExtState) (p : ℚ)
    (hc : s.mClosingCancelled = true) :
    ((SetUploadProgress env s p).1).mClosingCancelled = true := by
  simp only [SetUploadProgress]
  split
  · simpa using hc
  · split
    · rfl
    · simpa using hc

/-- `OnCloudStatusChanged` never clears the cancellation flag. -/
theorem onCloudStatusChanged_cancel_mono (env : Env) (s : ExtState)
    (m : CloudStatusChangedMessage) (hc : s.mClosingCancelled = true) :
    ((OnCloudStatusChanged env s m).1).mClosingCancelled = true := by
  have hsu : ∀ t : ExtState, t.mClosingCancelled = true →
      ((SetUploadProgress env t m.Progress).1).mClosingCancelled = true :=
    fun t ht => setUploadProgress_cancel_mono env t m.Progress ht
  simp only [OnCloudStatusChanged]
  repeat' split
  all_goals simp_all

/-- C10: once `closingWasCancelled` is set, neither progress reporting nor
status handling ever clears it, and every later `allowClosing()` call exits
its wait loop immediately — state, including the dialog slot, untouched —
returning `true` exactly when `currentlySyncing` is false at that moment. -/
theorem closing_cancelled_is_permanent (env : Env) (s : ExtState) (p : ℚ)
    (m : CloudStatusChangedMessage) (step : ExtState → ExtState) (fuel : Nat)
    (hc : s.mClosingCancelled = true) :
    ((SetUploadProgress env s p).1).mClosingCancelled = true ∧
      ((OnCloudStatusChanged env s m).1).mClosingCancelled = true ∧
      AllowClosing step fuel s = some ((!s.mInSync), s) := by
  refine ⟨setUploadProgress_cancel_mono env s p hc,
    onCloudStatusChanged_cancel_mono env s m hc, ?_⟩
  have he := allowClosing_exit step fuel s (by simp [hc])
  simpa [hc] using he

/-- Witness for `closing_cancelled_is_permanent` on the concrete cancelled
state. -/
theorem closing_cancelled_is_permanent_witness :
    ((SetUploadProgress env0 cancelledExitState 0).1).mClosingCancelled = true ∧
      ((OnCloudStatusChanged env0 cancelledExitState idleMsg).1).mClosingCancelled
        = true ∧
      AllowClosing id 0 cancelledExitState =
        some ((!cancelledExitState.mInSync), cancelledExitState) :=
  closing_cancelled_is_permanent env0 cancelledExitState 0 idleMsg id 0 (by rfl)

/-- C7: polling an existing handle — `Cancelled` records the cancellation,
destroys the handle and returns continue; `Stopped` returns halt; any other
answer returns continue; and the cancellation flag is written in no other
case. -/
theorem setUploadProgress_poll_handling (env : Env) (s : ExtState) (p : ℚ)
    (hdlg : s.mProgressDialog = true) :
    (env.pollResult = ProgressResult.Cancelled →
      SetUploadProgress env s p =
        ({ s with mProgress := p, mClosingCancelled := true, mProgressDialog := false },
          true, [Effect.poll (round (p * 10000)) 10000])) ∧
    (env.pollResult = ProgressResult.Stopped →
      (SetUploadProgress env s p).2.1 = false ∧
        ((SetUploadProgress env s p).1).mClosingCancelled
          = s.mClosingCancelled) ∧
    (env.pollResult ≠ ProgressResult.Cancelled →
      env.pollResult ≠ ProgressResult.Stopped →
      (SetUploadProgress env s p).2.1 = true ∧
        ((SetUploadProgress env s p).1).mClosingCancelled
          = s.mClosingCancelled) := by
  cases hp : env.pollResult <;>
    simp [SetUploadProgress, hdlg, hp]

/-- Witness for `setUploadProgress_poll_handling`: the dialog exists and the
capability answers `Cancelled`. -/
theorem setUploadProgress_poll_handling_witness :
    (cancelEnv.pollResult = ProgressResult.Cancelled →
      SetUploadProgress cancelEnv dialogState 0 =
        ({ dialogState with mProgress := 0, mClosingCancelled := true, mProgressDialog := false },
          true, [Effect.poll (round ((0 : ℚ) * 10000)) 10000])) ∧
    (cancelEnv.pollResult = ProgressResult.Stopped →
      (SetUploadProgress cancelEnv dialogState 0).2.1 = false ∧
        ((SetUploadProgress cancelEnv dialogState 0).1).mClosingCancelled
          = dialogState.mClosingCancelled) ∧
    (cancelEnv.pollResult ≠ ProgressResult.Cancelled →
      cancelEnv.pollResult ≠ ProgressResult.Stopped →
      (SetUploadProgress cancelEnv dialogState 0).2.1 = true ∧
        ((SetUploadProgress cancelEnv dialogState 0).1).mClosingCancelled
          = dialogState.mClosingCancelled) :=
  setUploadProgress_poll_handling cancelEnv dialogState 0 (by rfl)

/-- C9 counterexample: while a sync is in flight and no handle exists, a
progress update does not create one — `SetUploadProgress` returns early
with the dialog slot still empty and no poll issued. -/
theorem report_while_syncing_creates_no_handle :
    syncingState.mInSync = true ∧
      syncingState.mProgressDialog = false ∧
      ((SetUploadProgress env0 syncingState (1 / 2)).1).mProgressDialog
        = false ∧
      (SetUploadProgress env0 syncingState (1 / 2)).2.2 = [] := by
  refine ⟨rfl, rfl, rfl, rfl⟩

/-- C9 amended: a progress update delivered with no existing handle leaves
the handle slot empty, only records the progress value, returns continue
and performs no external effect; handles are created by the closing gate
alone. -/
theorem report_without_handle_creates_none (env : Env) (s : ExtState)
    (p : ℚ) (h : s.mProgressDialog = false) :
    SetUploadProgress env s p = ({ s with mProgress := p }, true, []) := by
  simp [SetUploadProgress, h]

/-- Witness for `report_without_handle_creates_none` on the syncing state
with an empty dialog slot. -/
theorem report_without_handle_creates_none_witness :
    SetUploadProgress env0 syncingState 0 =
      ({ syncingState with mProgress := 0 }, true, []) :=
  report_without_handle_creates_none env0 syncingState 0 (by rfl)

/-- Rounding on the rationals is monotone. -/
theorem round_rat_mono {x y : ℚ} (h : x ≤ y) : round x ≤ round y := by
  rw [round_eq, round_eq]
  exact Int.floor_mono (by linarith)

/-- A fraction at most one rounds to a tick of at most `10000`. -/
theorem round_tick_le (p : ℚ) (h1 : p ≤ 1) : round (p * 10000) ≤ 10000 := by
  have hb : round ((10000 : ℚ)) = 10000 := by
    norm_num
  calc round (p * 10000) ≤ round ((10000 : ℚ)) := round_rat_mono (by nlinarith)
    _ = 10000 := hb

/-- C6: while a handle exists, a progress update at fraction `p` polls the
capability exactly once, at tick `round (p * 10000)` of maximum `10000`;
the tick never exceeds `10000` for `p ≤ 1`, and the tick is monotone in the
delivered fraction, so non-decreasing fractions give non-decreasing ticks. -/
theorem poll_tick_rounded_and_monotone (env : Env) (s : ExtState) (p q : ℚ)
    (hdlg : s.mProgressDialog = true) (h0 : 0 ≤ p) (h1 : p ≤ 1)
    (hpq : p ≤ q) :
    (SetUploadProgress env s p).2.2
        = [Effect.poll (round (p * 10000)) 10000] ∧
      round (p * 10000) ≤ 10000 ∧
      round (p * 10000) ≤ round (q * 10000) := by
  refine ⟨?_, round_tick_le p h1, round_rat_mono (by nlinarith)⟩
  simp only [SetUploadProgress]
  split
  · simp_all
  · split <;> rfl

/-- Witness for `poll_tick_rounded_and_monotone` at fractions one half and
three quarters. -/
theorem poll_tick_rounded_and_monotone_witness :
    (SetUploadProgress env0 dialogState (1 / 2)).2.2
        = [Effect.poll (round ((1 / 2 : ℚ) * 10000)) 10000] ∧
      round ((1 / 2 : ℚ) * 10000) ≤ 10000 ∧
      round ((1 / 2 : ℚ) * 10000) ≤ round ((3 / 4 : ℚ) * 10000) :=
  poll_tick_rounded_and_monotone env0 dialogState (1 / 2) (3 / 4) (by rfl)
    (by norm_num) (by norm_num) (by norm_num)

/-- On a `Failed` status carrying an error, the handler's effect list is the
not-syncing bookkeeping (one announcement when armed or when the saves
counter reads zero), then the selected recovery branch, then the final
diagnostic log record. -/
theorem onCloudStatusChanged_failed_acts (env : Env) (s : ExtState) (pr : ℚ)
    (error : CloudSyncError) :
    (OnCloudStatusChanged env s
        { Status := ProjectSyncStatus.Failed, Progress := pr,
          Error := some error }).2 =
      (if s.mNeedsFirstSaveDialog || env.savesCount == 0
        then [Effect.showSyncSuccessDialog] else []) ++
        recoveryActions env error ++
        [Effect.logError (cloudSyncFailedRecord error.ErrorMessage)] := by
  cases hn : s.mNeedsFirstSaveDialog <;> cases hz : env.savesCount == 0 <;>
    simp [OnCloudStatusChanged, CloudStatusChangedMessage.IsSyncing,
      show (ProjectSyncStatus.Failed == ProjectSyncStatus.Syncing) = false
        from rfl, hn, hz]

/-- The re-trigger modes prescribed by the spec's §4.4 recovery table,
written from the table's words: `Authorization` retries in `Normal` mode;
the two limit kinds retry in `Normal` mode on the visit-service path and on
the failed-local-resave fallback; a version conflict retries in `ForceSave`
mode only when the user keeps the local version; not-found retries in
`SaveNew` mode directly or after a failed local resave; all remaining kinds
never retry. -/
def specRetriggerModes (env : Env) (kind : CloudSyncErrorKind) :
    List SaveMode :=
  match kind with
  | CloudSyncErrorKind.Authorization => [SaveMode.Normal]
  | CloudSyncErrorKind.ProjectLimitReached
  | CloudSyncErrorKind.ProjectStorageLimitReached =>
      if env.limitVisitAudioCom then [SaveMode.Normal]
      else if env.resaveLocallySucceeds then []
      else [SaveMode.Normal]
  | CloudSyncErrorKind.ProjectVersionConflict =>
      if env.conflictUseLocal then [SaveMode.ForceSave] else []
  | CloudSyncErrorKind.ProjectNotFound =>
      if env.notFoundSaveLocally then
        (if env.resaveLocallySucceeds then [] else [SaveMode.SaveNew])
      else [SaveMode.SaveNew]
  | _ => []

/-- Every recovery branch emits no diagnostic record and no first-sync
announcement of its own, and its sync re-triggers carry exactly the modes
of the spec's §4.4 table. -/
theorem recoveryActions_classified (env : Env) (error : CloudSyncError) :
    (recoveryActions env error).filter isLogRecord = [] ∧
      (recoveryActions env error).filter isAnnouncement = [] ∧
      saveModes (recoveryActions env error)
        = specRetriggerModes env error.ErrorKind := by
  rcases error with ⟨kind, msg⟩
  cases kind <;>
    cases hv : env.limitVisitAudioCom <;>
    cases hr : env.resaveLocallySucceeds <;>
    cases hcl : env.conflictUseLocal <;>
    cases hnf : env.notFoundSaveLocally <;>
      simp [recoveryActions, specRetriggerModes, saveModes, isLogRecord,
        isAnnouncement, hv, hr, hcl, hnf]

/-- C1: every `Failed` status event carrying an error runs exactly the one
recovery branch selected by the error kind, and the sync re-triggers of the
whole handler carry exactly the modes of the spec's §4.4 table; moreover
`Authorization` unlinks credentials before its `Normal` retry, a version
conflict resolved against the local copy reopens the project with no retry,
and `Cancelled` performs no recovery action at all. -/
theorem failed_event_retrigger_table (env : Env) (s : ExtState)
    (m : CloudStatusChangedMessage) (error : CloudSyncError)
    (hst : m.Status = ProjectSyncStatus.Failed)
    (herr : m.Error = some error) :
    saveModes (OnCloudStatusChanged env s m).2
        = specRetriggerModes env error.ErrorKind ∧
      (error.ErrorKind = CloudSyncErrorKind.Authorization →
        recoveryActions env error
          = [Effect.unlinkAccount, Effect.saveToCloud SaveMode.Normal]) ∧
      (error.ErrorKind = CloudSyncErrorKind.ProjectVersionConflict →
        env.conflictUseLocal = false →
        recoveryActions env error
          = [Effect.showVersionConflictDialog, Effect.reopenProject]) ∧
      (error.ErrorKind = CloudSyncErrorKind.Cancelled →
        recoveryActions env error = []) := by
  rcases m with ⟨st, prg, er⟩
  have hst2 : st = ProjectSyncStatus.Failed := hst
  subst hst2
  have herr2 : er = some error := herr
  subst herr2
  rcases error with ⟨kind, emsg⟩
  refine ⟨?_, ?_, ?_, ?_⟩
  · rw [onCloudStatusChanged_failed_acts]
    cases hb : (s.mNeedsFirstSaveDialog || env.savesCount == 0) <;>
      simpa [saveModes, List.filterMap_append, hb] using
        (recoveryActions_classified env ⟨kind, emsg⟩).2.2
  · intro hk
    have hk2 : kind = CloudSyncErrorKind.Authorization := hk
    subst hk2
    rfl
  · intro hk hcl
    have hk2 : kind = CloudSyncErrorKind.ProjectVersionConflict := hk
    subst hk2
    simp [recoveryActions, hcl]
  · intro hk
    have hk2 : kind = CloudSyncErrorKind.Cancelled := hk
    subst hk2
    rfl

/-- A failed authorization error and the event carrying it. -/
def authError : CloudSyncError :=
  { ErrorKind := CloudSyncErrorKind.Authorization
    ErrorMessage := "token rejected" }

/-- A `Failed` status snapshot carrying `authError`. -/
def authFailedMsg : CloudStatusChangedMessage :=
  { Status := ProjectSyncStatus.Failed, Progress := 0
    Error := some authError }

/-- Witness for `failed_event_retrigger_table` on a concrete authorization
failure. -/
theorem failed_event_retrigger_table_witness :
    saveModes (OnCloudStatusChanged env0 initialState authFailedMsg).2
        = specRetriggerModes env0 authError.ErrorKind ∧
      (authError.ErrorKind = CloudSyncErrorKind.Authorization →
        recoveryActions env0 authError
          = [Effect.unlinkAccount, Effect.saveToCloud SaveMode.Normal]) ∧
      (authError.ErrorKind = CloudSyncErrorKind.ProjectVersionConflict →
        env0.conflictUseLocal = false →
        recoveryActions env0 authError
          = [Effect.showVersionConflictDialog, Effect.reopenProject]) ∧
      (authError.ErrorKind = CloudSyncErrorKind.Cancelled →
        recoveryActions env0 authError = []) :=
  failed_event_retrigger_table env0 initialState authFailedMsg authError
    rfl rfl

/-- A `Failed` status snapshot carrying a `Network` error. -/
def networkFailedMsg : CloudStatusChangedMessage :=
  { Status := ProjectSyncStatus.Failed, Progress := 0
    Error := some { ErrorKind := CloudSyncErrorKind.Network
                    ErrorMessage := "request failed" } }

/-- A `Failed` status snapshot carrying a `Cancelled` error. -/
def cancelledFailedMsg : CloudStatusChangedMessage :=
  { Status := ProjectSyncStatus.Failed, Progress := 0
    Error := some { ErrorKind := CloudSyncErrorKind.Cancelled
                    ErrorMessage := "request failed" } }

/-- C5 counterexample: the diagnostic record carries only the error
message, not the kind — two failures of different kinds but equal message
emit the very same record, so the record cannot contain the kind. -/
theorem log_record_lacks_error_kind :
    CloudSyncErrorKind.Network ≠ CloudSyncErrorKind.Cancelled ∧
      (OnCloudStatusChanged env0 initialState networkFailedMsg).2.getLast?
        = (OnCloudStatusChanged env0 initialState cancelledFailedMsg).2.getLast? ∧
      (OnCloudStatusChanged env0 initialState networkFailedMsg).2.getLast?
        = some (Effect.logError "Cloud sync has failed: request failed") := by
  refine ⟨by decide, rfl, rfl⟩

/-- C5 amended: every `Failed` event carrying an error emits exactly one
diagnostic record; the record carries the error message (the kind is not
part of it), and it is emitted after the branch-specific actions, as the
handler's final effect. -/
theorem failed_event_logs_message_once_last (env : Env) (s : ExtState)
    (m : CloudStatusChangedMessage) (error : CloudSyncError)
    (hst : m.Status = ProjectSyncStatus.Failed)
    (herr : m.Error = some error) :
    countLogRecords (OnCloudStatusChanged env s m).2 = 1 ∧
      ((OnCloudStatusChanged env s m).2).getLast?
        = some (Effect.logError (cloudSyncFailedRecord error.ErrorMessage)) := by
  rcases m with ⟨st, prg, er⟩
  have hst2 : st = ProjectSyncStatus.Failed := hst
  subst hst2
  have herr2 : er = some error := herr
  subst herr2
  rw [onCloudStatusChanged_failed_acts]
  constructor
  · have hrec := (recoveryActions_classified env error).1
    cases hb : (s.mNeedsFirstSaveDialog || env.savesCount == 0) <;>
      simp [countLogRecords, List.filter_append, hb, hrec, isLogRecord]
  · exact List.getLast?_concat _

/-- Witness for `failed_event_logs_message_once_last` on the concrete
authorization failure. -/
theorem failed_event_logs_message_once_last_witness :
    countLogRecords (OnCloudStatusChanged env0 initialState authFailedMsg).2
        = 1 ∧
      ((OnCloudStatusChanged env0 initialState authFailedMsg).2).getLast?
        = some (Effect.logError (cloudSyncFailedRecord authError.ErrorMessage)) :=
  failed_event_logs_message_once_last env0 initialState authFailedMsg
    authError rfl rfl

/-- Announcement counts are additive over effect concatenation. -/
theorem countAnnouncements_append (a b : List Effect) :
    countAnnouncements (a ++ b)
      = countAnnouncements a + countAnnouncements b := by
  simp [countAnnouncements, List.filter_append]

/-- One status event fires the announcement exactly when the event is not
in progress and the owed flag is armed or the saves counter reads zero; the
owed flag survives the call exactly when armed and still syncing. -/
theorem onCloudStatusChanged_announce_spec (env : Env) (s : ExtState)
    (m : CloudStatusChangedMessage) :
    countAnnouncements (OnCloudStatusChanged env s m).2
        = (if (!m.IsSyncing)
              && (s.mNeedsFirstSaveDialog || env.savesCount == 0)
            then 1 else 0) ∧
      ((OnCloudStatusChanged env s m).1).mNeedsFirstSaveDialog
        = ((s.mNeedsFirstSaveDialog || env.savesCount == 0)
            && m.IsSyncing) := by
  have hrec : ∀ e, (recoveryActions env e).filter isAnnouncement = [] :=
    fun e => (recoveryActions_classified env e).2.1
  rcases m with ⟨st, pr, er⟩
  rcases er with _ | e <;> cases st <;>
    cases hn : s.mNeedsFirstSaveDialog <;>
    cases hz : env.savesCount == 0 <;>
    cases hd : s.mProgressDialog <;>
    cases hp : env.pollResult <;>
      simp [OnCloudStatusChanged, SetUploadProgress,
        CloudStatusChangedMessage.IsSyncing, countAnnouncements,
        List.filter_append, isAnnouncement, hrec, hn, hz, hd, hp,
        show (ProjectSyncStatus.Idle == ProjectSyncStatus.Syncing) = false
          from rfl,
        show (ProjectSyncStatus.Syncing == ProjectSyncStatus.Syncing) = true
          from rfl,
        show (ProjectSyncStatus.Succeeded == ProjectSyncStatus.Syncing)
            = false from rfl,
        show (ProjectSyncStatus.Failed == ProjectSyncStatus.Syncing) = false
          from rfl]

/-- An oracle that still reads zero prior saves. -/
def zeroSavesEnv : Env :=
  { env0 with savesCount := 0 }

/-- A successful-completion status snapshot. -/
def succeededMsg : CloudStatusChangedMessage :=
  { Status := ProjectSyncStatus.Succeeded, Progress := 1, Error := none }

/-- C4 counterexample: two completion events while the saves counter still
reads zero make the first-sync announcement fire twice in one instance,
refuting "at most once". -/
theorem first_sync_announcement_fires_twice :
    countAnnouncements
        (runTrace initialState
          [(zeroSavesEnv, succeededMsg), (zeroSavesEnv, succeededMsg)]).2
      = 2 := by
  rfl

/-- An instance that never observes a zero saves counter never announces
and never arms the owed flag. -/
theorem runTrace_no_zero_no_announce :
    ∀ (trace : List (Env × CloudStatusChangedMessage)) (s : ExtState),
      s.mNeedsFirstSaveDialog = false →
      (∀ e ∈ trace, (e.1).savesCount ≠ 0) →
      countAnnouncements (runTrace s trace).2 = 0 ∧
        ((runTrace s trace).1).mNeedsFirstSaveDialog = false := by
  intro trace
  induction trace with
  | nil =>
      intro s hs _
      exact ⟨rfl, hs⟩
  | cons head tail ih =>
      intro s hs hz
      have hzh : (head.1).savesCount ≠ 0 := hz head (List.mem_cons_self _ _)
      have hzb : ((head.1).savesCount == 0) = false :=
        beq_eq_false_iff_ne.mpr hzh
      have hstep := onCloudStatusChanged_announce_spec head.1 s head.2
      rw [hs, hzb] at hstep
      simp only [Bool.false_or, Bool.false_and, Bool.and_false] at hstep
      have htail := ih (OnCloudStatusChanged head.1 s head.2).1 hstep.2
        (fun e he => hz e (List.mem_cons_of_mem _ he))
      rcases head with ⟨henv, hmsg⟩
      simp only [runTrace, countAnnouncements_append]
      constructor
      · have h1 : countAnnouncements (OnCloudStatusChanged henv s hmsg).2
            = 0 := by
          simpa using hstep.1
        simpa [h1] using htail.1
      · simpa using htail.2

/-- C4 amended: per status event the announcement fires at most once; when
it fires from an unarmed flag the saves counter was observed as exactly
zero at that event and the owed flag is cleared before the announcement is
recorded; and an instance that never observes a zero counter never
announces.  (The code re-arms the flag whenever the counter still reads
zero, so across events the announcement is not bounded by one.) -/
theorem first_sync_announcement_discipline (env : Env) (s : ExtState)
    (m : CloudStatusChangedMessage)
    (trace : List (Env × CloudStatusChangedMessage))
    (hneeds : s.mNeedsFirstSaveDialog = false)
    (hzero : ∀ e ∈ trace, (e.1).savesCount ≠ 0) :
    countAnnouncements (OnCloudStatusChanged env s m).2 ≤ 1 ∧
      (1 ≤ countAnnouncements (OnCloudStatusChanged env s m).2 →
        env.savesCount = 0 ∧
        ((OnCloudStatusChanged env s m).1).mNeedsFirstSaveDialog = false) ∧
      countAnnouncements (runTrace s trace).2 = 0 := by
  obtain ⟨hc, hf⟩ := onCloudStatusChanged_announce_spec env s m
  refine ⟨?_, ?_, (runTrace_no_zero_no_announce trace s hneeds hzero).1⟩
  · rw [hc]
    split <;> simp
  · intro hge
    rw [hc] at hge
    split at hge
    · rename_i hcond
      have hparts : (!m.IsSyncing) = true ∧
          (s.mNeedsFirstSaveDialog || env.savesCount == 0) = true := by
        simpa using hcond
      have hsync : m.IsSyncing = false := by
        cases hb : m.IsSyncing
        · rfl
        · rw [hb] at hparts
          simp at hparts
      have hz : env.savesCount = 0 := by
        have harm := hparts.2
        rw [hneeds] at harm
        simpa using harm
      refine ⟨hz, ?_⟩
      rw [hf, hsync]
      simp
    · exact absurd hge (by decide)

/-- Witness for `first_sync_announcement_discipline`: a zero-count
completion event on a fresh instance, and a nonzero-count trace. -/
theorem first_sync_announcement_discipline_witness :
    countAnnouncements
        (OnCloudStatusChanged zeroSavesEnv initialState succeededMsg).2 ≤ 1 ∧
      (1 ≤ countAnnouncements
          (OnCloudStatusChanged zeroSavesEnv initialState succeededMsg).2 →
        zeroSavesEnv.savesCount = 0 ∧
        ((OnCloudStatusChanged zeroSavesEnv initialState
            succeededMsg).1).mNeedsFirstSaveDialog = false) ∧
      countAnnouncements (runTrace initialState [(env0, idleMsg)]).2 = 0 :=
  first_sync_announcement_discipline zeroSavesEnv initialState succeededMsg
    [(env0, idleMsg)] (by rfl)
    (by intro e he; simp at he; rw [he]; decide)

/-- The handler's inline effects: everything it performs except the sync
re-trigger requests. -/
def inlineEffects (env : Env) (s : ExtState)
    (m : CloudStatusChangedMessage) : List Effect :=
  ((OnCloudStatusChanged env s m).2).filter fun a => !isSaveToCloud a

/-- The handler's sync re-trigger requests. -/
def deferredRetriggers (env : Env) (s : ExtState)
    (m : CloudStatusChangedMessage) : List Effect :=
  ((OnCloudStatusChanged env s m).2).filter isSaveToCloud

/-- Modelled from the spec: `SaveToCloud` lives in `CloudProjectUtils`,
which is not under `src/`; per the spec (§4.4, §5) it requests the
re-trigger through the external sync-initiation capability used by normal
saves, scheduled to run only after the status-event handler has finished.
The observable timeline of one event is therefore the handler's inline
effects followed by its deferred sync re-triggers. -/
def eventTimeline (env : Env) (s : ExtState)
    (m : CloudStatusChangedMessage) : List Effect :=
  inlineEffects env s m ++ deferredRetriggers env s m

/-- Filtering with a predicate and then with its negation leaves nothing,
in either order. -/
theorem filter_not_filter (p : Effect → Bool) (l : List Effect) :
    (l.filter fun a => !p a).filter p = [] ∧
      (l.filter p).filter (fun a => !p a) = [] := by
  induction l with
  | nil => exact ⟨rfl, rfl⟩
  | cons a t ih =>
      cases hp : p a <;>
        simp [List.filter_cons, hp, ih.1, ih.2]

/-- Dropping the non-re-trigger effects preserves the re-trigger modes. -/
theorem saveModes_filter (l : List Effect) :
    saveModes (l.filter isSaveToCloud) = saveModes l := by
  induction l with
  | nil => rfl
  | cons a t ih =>
      cases a <;>
        simp [List.filter_cons, saveModes, List.filterMap_cons,
          isSaveToCloud] <;>
        simpa [saveModes] using ih

/-- C8: on a `Failed` event carrying an error, the event timeline is the
handler's inline processing — which contains the final diagnostic record
and no sync re-trigger — followed by the deferred re-trigger requests,
which carry exactly the modes the handler requested; so every re-trigger
happens only after the failure event has fully finished processing. -/
theorem retrigger_scheduled_after_event (env : Env) (s : ExtState)
    (m : CloudStatusChangedMessage) (error : CloudSyncError)
    (hst : m.Status = ProjectSyncStatus.Failed)
    (herr : m.Error = some error) :
    eventTimeline env s m
        = inlineEffects env s m ++ deferredRetriggers env s m ∧
      Effect.logError (cloudSyncFailedRecord error.ErrorMessage)
        ∈ inlineEffects env s m ∧
      (inlineEffects env s m).filter isSaveToCloud = [] ∧
      (deferredRetriggers env s m).filter (fun a => !isSaveToCloud a) = [] ∧
      saveModes (deferredRetriggers env s m)
        = saveModes (OnCloudStatusChanged env s m).2 := by
  rcases m with ⟨st, prg, er⟩
  have hst2 : st = ProjectSyncStatus.Failed := hst
  subst hst2
  have herr2 : er = some error := herr
  subst herr2
  refine ⟨rfl, ?_, (filter_not_filter isSaveToCloud _).1,
    (filter_not_filter isSaveToCloud _).2, saveModes_filter _⟩
  apply List.mem_filter.mpr
  refine ⟨?_, by rfl⟩
  rw [onCloudStatusChanged_failed_acts]
  exact List.mem_append_right _ (List.mem_singleton_self _)

/-- Witness for `retrigger_scheduled_after_event` on the concrete
authorization failure. -/
theorem retrigger_scheduled_after_event_witness :
    eventTimeline env0 initialState authFailedMsg
        = inlineEffects env0 initialState authFailedMsg
            ++ deferredRetriggers env0 initialState authFailedMsg ∧
      Effect.logError (cloudSyncFailedRecord authError.ErrorMessage)
        ∈ inlineEffects env0 initialState authFailedMsg ∧
      (inlineEffects env0 initialState authFailedMsg).filter isSaveToCloud
        = [] ∧
      (deferredRetriggers env0 initialState authFailedMsg).filter
          (fun a => !isSaveToCloud a) = [] ∧
      saveModes (deferredRetriggers env0 initialState authFailedMsg)
        = saveModes (OnCloudStatusChanged env0 initialState authFailedMsg).2 :=
  retrigger_scheduled_after_event env0 initialState authFailedMsg authError
    rfl rfl
